import Mathlib

/-!
Shallow embedding of the Dayonegame core gameplay simulation:
ball kick physics (`Ball.kick`), the player state machine
(`Player.handleInput`, `Player.updateTimers`), the match-controller
collision and goal handlers (`GameScene.handlePlayerBallContact`,
`GameScene.handleGoal`, `GameScene.handlePlayerCollision`,
`GameScene.checkManualCollisions`) and the AI decision rule
(`AIController.makeDecision`).

Numbers are modelled as real numbers (the source runs on JS doubles and
uses `Math.sqrt`); configuration values read from `gameConfig.json` are
kept as parameters of the model.
-/

namespace Dayonegame

noncomputable section

/-- Model of `Phaser.Math.Vector2`: a pair of real coordinates. -/
structure V2 where
  x : ℝ
  y : ℝ

/-- Source `Vector2.scale(s)`: multiplies both components by `s`. -/
def V2.scale (v : V2) (s : ℝ) : V2 := ⟨v.x * s, v.y * s⟩

/-- Source `Vector2.length()`: Euclidean norm. -/
def V2.length (v : V2) : ℝ := Real.sqrt (v.x ^ 2 + v.y ^ 2)

/-- Source `Vector2.normalize()`: divides by the length when it is positive,
otherwise leaves the vector unchanged (the Phaser behaviour on the zero
vector). -/
def V2.normalize (v : V2) : V2 :=
  if v.length > 0 then ⟨v.x / v.length, v.y / v.length⟩ else v

/-- The kick kinds accepted by `Ball.kick`. -/
inductive KickType
  | normal
  | slide
  | jump
deriving DecidableEq

/-- Kinematic state of the ball: position, velocity and angular (spin)
velocity of its arcade body. -/
structure Ball where
  x : ℝ
  y : ℝ
  velX : ℝ
  velY : ℝ
  angularVelocity : ℝ

/-- Source `body.velocity.length()` for the ball. -/
def Ball.speed (b : Ball) : ℝ := Real.sqrt (b.velX ^ 2 + b.velY ^ 2)

/-- Source `Ball.isMoving()`: speed strictly above 20. -/
def Ball.isMoving (b : Ball) : Prop := b.speed > 20

instance (b : Ball) : Decidable b.isMoving :=
  inferInstanceAs (Decidable (b.speed > 20))

/-- The `switch (kickType)` block of `Ball.kick`: shapes the raw impulse
into the pre-clamp `finalForce`.
  - `slide`: `finalForce.scale(1.5)` then `finalForce.y *= 0.3`;
  - `jump`: `finalForce.y = Math.abs(finalForce.y) * -2.0` and
    `finalForce.x *= 0.8`;
  - `normal`: `distanceMultiplier = Math.min(distance / 150, 2.0)`,
    `finalForce.scale(0.8 + distanceMultiplier * 0.4)`, then
    `finalForce.y = -Math.max(200, distance * 1.5)`. -/
def Ball.kickFinalForce (force : V2) (kickType : KickType) (distance : ℝ) : V2 :=
  match kickType with
  | .slide =>
      let f := force.scale 1.5
      ⟨f.x, f.y * 0.3⟩
  | .jump =>
      ⟨force.x * 0.8, |force.y| * (-2.0)⟩
  | .normal =>
      let distanceMultiplier := min (distance / 150) 2.0
      let f := force.scale (0.8 + distanceMultiplier * 0.4)
      let upwardBoost := max 200 (distance * 1.5)
      ⟨f.x, -upwardBoost⟩

/-- Source `Ball.kick(force, playerHeight, kickType, distance)`: shapes the
impulse, clamps the result to `maxSpeed * 1.2` (normalize-and-rescale
when the pre-clamp magnitude exceeds the cap), sets the body velocity to
the clamped vector, and sets the angular velocity to
`magnitude * 0.02` signed by `force.x > 0`, where `magnitude` is the
length taken before the clamp.  `playerHeight` is accepted but never
read, exactly as in the source. -/
def Ball.kick (maxSpeed : ℝ) (b : Ball) (force : V2) (playerHeight : ℝ)
    (kickType : KickType) (distance : ℝ) : Ball :=
  let finalForce := Ball.kickFinalForce force kickType distance
  let magnitude := finalForce.length
  let clamped :=
    if magnitude > maxSpeed * 1.2 then
      (finalForce.normalize).scale (maxSpeed * 1.2)
    else finalForce
  let spinSpeed := magnitude * 0.02
  { b with
    velX := clamped.x
    velY := clamped.y
    angularVelocity := if force.x > 0 then spinSpeed else -spinSpeed }

/-- The two player sides. -/
inductive Side
  | left
  | right
deriving DecidableEq

/-- The `PlayerState` union type of `Player.ts`. -/
inductive PState
  | idle
  | walking
  | jumping
  | sliding
  | kicking
  | stunned
deriving DecidableEq

/-- The `playerConfig` values read from `gameConfig.json` (kept abstract:
the JSON file is not part of the sources). -/
structure PlayerConfig where
  moveSpeed : ℝ
  jumpPower : ℝ
  slideSpeed : ℝ
  slideDuration : ℝ
  kickDuration : ℝ
  stunDuration : ℝ

/-- The `ballConfig` values read from `gameConfig.json`. -/
structure BallConfig where
  maxSpeed : ℝ
  normalKickForce : ℝ
  slideKickForce : ℝ
  jumpKickForce : ℝ
  runningKickForce : ℝ

/-- The `fieldConfig` values read from `gameConfig.json`. -/
structure FieldConfig where
  goalWidth : ℝ
  goalHeight : ℝ

/-- Player entity state: position and velocity of the arcade body plus
the private fields of the `Player` class.  The two one-shot jump timers
(`jumpFallTimer`, `jumpLandTimer`) are modelled by whether an event is
currently scheduled (non-null in the source). -/
structure Player where
  x : ℝ
  y : ℝ
  velX : ℝ
  velY : ℝ
  playerSide : Side
  playerState : PState
  isStunned : Bool
  stunTimer : ℝ
  slideTimer : ℝ
  kickTimer : ℝ
  kickCooldown : ℝ
  facingRight : Bool
  isOnGround : Bool
  jumpFallTimer : Bool
  jumpLandTimer : Bool

/-- Source `Player.isSliding()`. -/
def Player.isSliding (p : Player) : Prop := p.playerState = PState.sliding

/-- Source `Player.isKicking()`. -/
def Player.isKicking (p : Player) : Prop := p.playerState = PState.kicking

instance (p : Player) : Decidable p.isSliding :=
  inferInstanceAs (Decidable (p.playerState = PState.sliding))

instance (p : Player) : Decidable p.isKicking :=
  inferInstanceAs (Decidable (p.playerState = PState.kicking))

/-- Source `Player.startSlide()`: enters the sliding state and arms the slide
timer (`slideDuration * 1000` ms).  Sounds, camera shake and tint are
out-of-scope side effects. -/
def Player.startSlide (cfg : PlayerConfig) (p : Player) : Player :=
  { p with playerState := PState.sliding, slideTimer := cfg.slideDuration * 1000 }

/-- Source `Player.startKick()`: enters the kicking state, arms the kick timer
(`kickDuration * 1000` ms) and the fixed 500 ms kick cooldown. -/
def Player.startKick (cfg : PlayerConfig) (p : Player) : Player :=
  { p with
    playerState := PState.kicking
    kickTimer := cfg.kickDuration * 1000
    kickCooldown := 500 }

/-- Source `Player.triggerKick()`: starts a kick only when the kick cooldown has
elapsed. -/
def Player.triggerKick (cfg : PlayerConfig) (p : Player) : Player :=
  if p.kickCooldown ≤ 0 then Player.startKick cfg p else p

/-- Source `Player.stun()`: enters the stunned state, arms the stun timer and
zeroes horizontal velocity. -/
def Player.stun (cfg : PlayerConfig) (p : Player) : Player :=
  { p with
    isStunned := true
    stunTimer := cfg.stunDuration * 1000
    playerState := PState.stunned
    velX := 0 }

/-- Source `Player.getKickForce()`: state-dependent kick impulse.  Priority:
sliding, then airborne, then running (`|velX| > 150`), then baseline;
direction is the facing sign. -/
def Player.getKickForce (bc : BallConfig) (p : Player) : V2 :=
  let speedX := |p.velX|
  let kickForceAndVertical : ℝ × ℝ :=
    if p.playerState = PState.sliding then (bc.slideKickForce, -50)
    else if p.isOnGround = false then (bc.jumpKickForce, -150)
    else if speedX > 150 then (bc.runningKickForce, -120)
    else (bc.normalKickForce, -100)
  let kickDirection : ℝ := if p.facingRight then 1 else -1
  ⟨kickDirection * kickForceAndVertical.1, kickForceAndVertical.2⟩

/-- The result record of `Player.getKickInfo()`. -/
structure KickInfo where
  force : V2
  type : KickType
  distance : ℝ

/-- Source `Player.getKickInfo()`: kick type and nominal distance from the
player state (sliding → slide/200, airborne → jump/120, running →
normal/180, otherwise normal/100), with the force from
`getKickForce`. -/
def Player.getKickInfo (bc : BallConfig) (p : Player) : KickInfo :=
  let speedX := |p.velX|
  let typeAndDistance : KickType × ℝ :=
    if p.playerState = PState.sliding then (KickType.slide, 200)
    else if p.isOnGround = false then (KickType.jump, 120)
    else if speedX > 150 then (KickType.normal, 180)
    else (KickType.normal, 100)
  { force := Player.getKickForce bc p
    type := typeAndDistance.1
    distance := typeAndDistance.2 }

/-- The horizontal-movement block of `Player.handleInput`: sets `velX`
and the facing from the left/right keys. -/
def Player.inputMove (cfg : PlayerConfig) (p : Player) (leftKey rightKey : Bool) :
    Player :=
  if leftKey = true ∧ rightKey = false then
    { p with velX := -cfg.moveSpeed, facingRight := false }
  else if rightKey = true ∧ leftKey = false then
    { p with velX := cfg.moveSpeed, facingRight := true }
  else { p with velX := 0 }

/-- The jumping branch of `Player.handleInput` (highest priority): fires
on up-input while grounded, idle, and no action taken yet; enters
`jumping`, applies the jump velocity and schedules the two jump timers.
The `Bool` component is the `actionTaken` flag. -/
def Player.inputJump (cfg : PlayerConfig) (pa : Player × Bool) (upKey : Bool) :
    Player × Bool :=
  if upKey = true ∧ pa.1.isOnGround = true ∧ pa.1.playerState = PState.idle ∧
      pa.2 = false then
    ({ pa.1 with
        playerState := PState.jumping
        velY := -cfg.jumpPower
        jumpFallTimer := true
        jumpLandTimer := true }, true)
  else pa

/-- The sliding branch of `Player.handleInput` (second priority): fires
on down-input while grounded, idle, slide timer elapsed, and no action
taken yet. -/
def Player.inputSlide (cfg : PlayerConfig) (pa : Player × Bool) (downKey : Bool) :
    Player × Bool :=
  if downKey = true ∧ pa.1.isOnGround = true ∧ pa.1.slideTimer ≤ 0 ∧
      pa.1.playerState = PState.idle ∧ pa.2 = false then
    (Player.startSlide cfg pa.1, true)
  else pa

/-- The generic kicking branch of `Player.handleInput` (lowest
priority): fires on kick-input when the cooldown has elapsed, the state
is not `sliding`, and no action taken yet. -/
def Player.inputKick (cfg : PlayerConfig) (pa : Player × Bool) (kickKey : Bool) :
    Player × Bool :=
  if kickKey = true ∧ pa.1.kickCooldown ≤ 0 ∧ pa.1.playerState ≠ PState.sliding ∧
      pa.2 = false then
    (Player.startKick cfg pa.1, true)
  else pa

/-- The trailing air-kick special case of `Player.handleInput`: carries
no `actionTaken` guard in the source; fires on kick-input with cooldown
elapsed while the state is `jumping`, switching to `kicking` without
touching the jump timers. -/
def Player.inputAirKick (cfg : PlayerConfig) (p : Player) (kickKey : Bool) :
    Player :=
  if kickKey = true ∧ p.kickCooldown ≤ 0 ∧ p.playerState = PState.jumping then
    { p with
      playerState := PState.kicking
      kickTimer := cfg.kickDuration * 1000
      kickCooldown := 500 }
  else p

/-- Source `Player.handleInput(left, right, up, down, kick)`: early-outs for
stunned and sliding, then the movement block and the four action
branches in source order, threading the `actionTaken` flag. -/
def Player.handleInput (cfg : PlayerConfig) (p0 : Player)
    (leftKey rightKey upKey downKey kickKey : Bool) : Player :=
  if p0.isStunned = true then p0
  else if p0.playerState = PState.sliding then p0
  else
    Player.inputAirKick cfg
      (Player.inputKick cfg
        (Player.inputSlide cfg
          (Player.inputJump cfg (Player.inputMove cfg p0 leftKey rightKey, false)
            upKey)
          downKey)
        kickKey).1
      kickKey

/-- The `if (this.stunTimer > 0)` block of `Player.updateTimers`:
decrements the stun timer; on expiry clears the stunned flag and, when
the state is `stunned`, recovers to `idle`. -/
def Player.updateStunTimer (p0 : Player) (deltaTime : ℝ) : Player :=
  if p0.stunTimer > 0 then
    let q : Player := { p0 with stunTimer := p0.stunTimer - deltaTime }
    if q.stunTimer ≤ 0 then
      let q' : Player := { q with isStunned := false }
      if q'.playerState = PState.stunned then { q' with playerState := PState.idle }
      else q'
    else q
  else p0

/-- The `if (this.slideTimer > 0)` block of `Player.updateTimers`:
decrements the slide timer; on expiry while sliding, returns to
`idle`. -/
def Player.updateSlideTimer (p0 : Player) (deltaTime : ℝ) : Player :=
  if p0.slideTimer > 0 then
    let q : Player := { p0 with slideTimer := p0.slideTimer - deltaTime }
    if q.slideTimer ≤ 0 ∧ q.playerState = PState.sliding then
      { q with playerState := PState.idle }
    else q
  else p0

/-- The `if (this.kickTimer > 0)` block of `Player.updateTimers`:
decrements the kick timer; on expiry while kicking, resumes `jumping`
when airborne (creating fresh jump timers when both are null, the fall
timer only for upward velocity) and returns to `idle` when grounded. -/
def Player.updateKickTimer (p0 : Player) (deltaTime : ℝ) : Player :=
  if p0.kickTimer > 0 then
    let q : Player := { p0 with kickTimer := p0.kickTimer - deltaTime }
    if q.kickTimer ≤ 0 ∧ q.playerState = PState.kicking then
      if q.isOnGround = false then
        let q' : Player := { q with playerState := PState.jumping }
        if q'.jumpFallTimer = false ∧ q'.jumpLandTimer = false then
          if q'.velY < 0 then { q' with jumpFallTimer := true, jumpLandTimer := true }
          else { q' with jumpLandTimer := true }
        else q'
      else { q with playerState := PState.idle }
    else q
  else p0

/-- The `if (this.kickCooldown > 0)` block of `Player.updateTimers`. -/
def Player.updateKickCooldown (p0 : Player) (deltaTime : ℝ) : Player :=
  if p0.kickCooldown > 0 then { p0 with kickCooldown := p0.kickCooldown - deltaTime }
  else p0

/-- Source `Player.updateTimers(deltaTime)`: the four timer blocks in source
order (stun, slide, kick, kick cooldown). -/
def Player.updateTimers (p0 : Player) (deltaTime : ℝ) : Player :=
  Player.updateKickCooldown
    (Player.updateKickTimer
      (Player.updateSlideTimer (Player.updateStunTimer p0 deltaTime) deltaTime)
      deltaTime)
    deltaTime

/-- The full configuration bundle (`gameConfig.json`). -/
structure Config where
  player : PlayerConfig
  ball : BallConfig
  field : FieldConfig

/-- Match-controller state: the `GameScene` fields the collision and
scoring handlers read and write, plus the two players and the ball.  The
goal sprites are static, so only their positions are kept. -/
structure GameScene where
  isGameActive : Bool
  paused : Bool
  player1Score : ℕ
  player2Score : ℕ
  lastGoalTime : ℝ
  lastManualCollisionP1 : ℝ
  lastManualCollisionP2 : ℝ
  player1 : Player
  player2 : Player
  ball : Ball
  leftGoalX : ℝ
  rightGoalX : ℝ
  goalY : ℝ

/-- The player reference passed to `handlePlayerBallContact`
(`this.player1` or `this.player2`). -/
def GameScene.contactPlayer (s : GameScene) (usePlayer1 : Bool) : Player :=
  if usePlayer1 then s.player1 else s.player2

/-- The directional-contact test of `handlePlayerBallContact`: the player
faces right and the ball is to the right (`ballRelativeToPlayer > 0`), or
faces left and the ball is to the left. -/
def GameScene.isProperKick (s : GameScene) (usePlayer1 : Bool) : Prop :=
  ((s.contactPlayer usePlayer1).facingRight = true ∧
    s.ball.x - (s.contactPlayer usePlayer1).x > 0) ∨
  ((s.contactPlayer usePlayer1).facingRight = false ∧
    s.ball.x - (s.contactPlayer usePlayer1).x < 0)

instance (s : GameScene) (u : Bool) : Decidable (s.isProperKick u) :=
  inferInstanceAs (Decidable (_ ∨ _))

/-- Source `GameScene.handlePlayerBallContact(player)`.  Ignored while the game
is inactive or paused.  A proper kick (facing matches the ball side)
delegates to `Ball.kick` with the `getKickInfo` of the player and the measured
player–ball distance, and triggers the kick animation only when the
player is neither sliding nor kicking; otherwise the contact is a body
bounce setting the ball velocity to `(±200, -100)` away from the player.
`usePlayer1` selects which player reference was passed in. -/
def GameScene.handlePlayerBallContact (cfg : Config) (s : GameScene)
    (usePlayer1 : Bool) : GameScene :=
  if s.isGameActive = false ∨ s.paused = true then s
  else
    let player := s.contactPlayer usePlayer1
    if s.isProperKick usePlayer1 then
      let kickInfo := Player.getKickInfo cfg.ball player
      let ballDistance :=
        Real.sqrt ((s.ball.x - player.x) ^ 2 + (s.ball.y - player.y) ^ 2)
      let ball' :=
        Ball.kick cfg.ball.maxSpeed s.ball kickInfo.force player.y
          kickInfo.type ballDistance
      let player' :=
        if ¬player.isSliding ∧ ¬player.isKicking then
          Player.triggerKick cfg.player player
        else player
      if usePlayer1 then { s with ball := ball', player1 := player' }
      else { s with ball := ball', player2 := player' }
    else
      let bounceForceX : ℝ :=
        if s.ball.x - player.x > 0 then 200 else -200
      { s with ball := { s.ball with velX := bounceForceX, velY := -100 } }

/-- Source `GameScene.handlePlayerCollision()`: if exactly one player is
sliding, the other is stunned. -/
def GameScene.handlePlayerCollision (cfg : Config) (s : GameScene) : GameScene :=
  if s.isGameActive = false ∨ s.paused = true then s
  else if s.player1.isSliding ∧ ¬s.player2.isSliding then
    { s with player2 := Player.stun cfg.player s.player2 }
  else if s.player2.isSliding ∧ ¬s.player1.isSliding then
    { s with player1 := Player.stun cfg.player s.player1 }
  else s

/-- Source `GameScene.handleGoal(scoringPlayer)` at engine time `now`
(`this.time.now`).  Ignored while inactive; debounced when a previous
goal was accepted (`lastGoalTime` truthy, i.e. nonzero) less than 1000
time-units ago.  An accepted goal records `lastGoalTime`, deactivates the
game, zeroes all velocities and increments the tally of the scoring side.  The
celebration and the delayed kickoff reset are scheduled side effects
outside this synchronous handler.  `scoringP1 = true` stands for the
argument `1`. -/
def GameScene.handleGoal (s : GameScene) (scoringP1 : Bool) (now : ℝ) : GameScene :=
  if s.isGameActive = false then s
  else if s.lastGoalTime ≠ 0 ∧ now - s.lastGoalTime < 1000 then s
  else
    let s' : GameScene :=
      { s with
        lastGoalTime := now
        isGameActive := false
        player1 := { s.player1 with velX := 0, velY := 0 }
        player2 := { s.player2 with velX := 0, velY := 0 }
        ball := { s.ball with velX := 0, velY := 0 } }
    if scoringP1 then { s' with player1Score := s'.player1Score + 1 }
    else { s' with player2Score := s'.player2Score + 1 }

/-- Source `GameScene.checkManualCollisions()` at engine time `now`: the manual
backup proximity pass.  Ball–player contacts fire within 70 units,
rate-limited to one per player per 200 time-units; the backup goal-line
checks fire when the ball crosses `leftGoalX + 20` (resp.
`rightGoalX - 20`) within the vertical band of the goal, pre-guarded by the
same 1000-unit goal debounce.  Position snapshots are taken up front, as
in the source. -/
def GameScene.checkManualCollisions (cfg : Config) (s : GameScene) (now : ℝ) :
    GameScene :=
  if s.isGameActive = false ∨ s.paused = true then s
  else
    let ballX := s.ball.x
    let ballY := s.ball.y
    let distToP1 := Real.sqrt ((ballX - s.player1.x) ^ 2 + (ballY - s.player1.y) ^ 2)
    let distToP2 := Real.sqrt ((ballX - s.player2.x) ^ 2 + (ballY - s.player2.y) ^ 2)
    let s1 : GameScene :=
      if distToP1 < 70 ∧ now - s.lastManualCollisionP1 > 200 then
        GameScene.handlePlayerBallContact cfg
          { s with lastManualCollisionP1 := now } true
      else s
    let s2 : GameScene :=
      if distToP2 < 70 ∧ now - s1.lastManualCollisionP2 > 200 then
        GameScene.handlePlayerBallContact cfg
          { s1 with lastManualCollisionP2 := now } false
      else s1
    let goalHeight := cfg.field.goalHeight
    let s3 : GameScene :=
      if ballX ≤ s.leftGoalX + 20 ∧ ballY ≥ s.goalY - goalHeight - 20 ∧
          ballY ≤ s.goalY + 20 then
        if now - s2.lastGoalTime > 1000 then GameScene.handleGoal s2 false now
        else s2
      else s2
    if ballX ≥ s.rightGoalX - 20 ∧ ballY ≥ s.goalY - goalHeight - 20 ∧
        ballY ≤ s.goalY + 20 then
      if now - s3.lastGoalTime > 1000 then GameScene.handleGoal s3 true now
      else s3
    else s3

/-- The AI behaviors (`currentAction`). -/
inductive AIAction
  | idle
  | chase
  | defend
  | attack
deriving DecidableEq

/-- Source `AIController.makeDecision()`: the priority rules selecting the
behavior, plus the sampled dwell duration (`actionTimer`), with `r` the
`Math.random()` sample of the branch taken.  Rule order: ball within 80
units and not moving → attack; within 120 units and slow (< 100) →
chase; ball within 200 units of the own-goal line of the AI → defend;
otherwise idle.  `camWidth` is `this.scene.cameras.main.width`. -/
def AIController.makeDecision (player : Player) (ball : Ball) (camWidth : ℝ)
    (r : ℝ) : AIAction × ℝ :=
  let distanceToBall :=
    Real.sqrt ((ball.x - player.x) ^ 2 + (ball.y - player.y) ^ 2)
  let isRightSide := player.playerSide = Side.right
  let ownGoalX := if isRightSide then camWidth * 0.9 else camWidth * 0.1
  if distanceToBall < 80 ∧ ¬ball.isMoving then
    (AIAction.attack, 1000 + r * 500)
  else if distanceToBall < 120 ∧ ball.speed < 100 then
    (AIAction.chase, 800 + r * 400)
  else if ball.x < ownGoalX + 200 ∧ ball.x > ownGoalX - 200 then
    (AIAction.defend, 600 + r * 300)
  else
    (AIAction.idle, 400 + r * 200)

/-! Concrete instances used by witnesses and counterexamples. -/

/-- A sample `playerConfig` (moveSpeed, jumpPower, slideSpeed,
slideDuration, kickDuration, stunDuration). -/
def testPlayerConfig : PlayerConfig := ⟨200, 400, 300, 0.5, 0.3, 1⟩

/-- A sample `ballConfig` (maxSpeed, normalKickForce, slideKickForce,
jumpKickForce, runningKickForce). -/
def testBallConfig : BallConfig := ⟨400, 300, 500, 350, 450⟩

/-- A sample `fieldConfig` (goalWidth, goalHeight). -/
def testFieldConfig : FieldConfig := ⟨120, 80⟩

/-- The sample configuration bundle. -/
def testConfig : Config := ⟨testPlayerConfig, testBallConfig, testFieldConfig⟩

/-- A ball at rest at the origin. -/
def restBall : Ball := ⟨0, 0, 0, 0, 0⟩

/-- An idle grounded player at `(100, 648)`, facing right, all timers
clear. -/
def idlePlayer : Player :=
  { x := 100, y := 648, velX := 0, velY := 0
    playerSide := Side.left, playerState := PState.idle
    isStunned := false, stunTimer := 0, slideTimer := 0, kickTimer := 0
    kickCooldown := 0, facingRight := true, isOnGround := true
    jumpFallTimer := false, jumpLandTimer := false }

/-- A mid-air player in the `jumping` state with both jump timers
scheduled and the kick cooldown elapsed. -/
def airbornePlayer : Player :=
  { idlePlayer with
    y := 500, velY := -400
    playerState := PState.jumping, isOnGround := false
    jumpFallTimer := true, jumpLandTimer := true }

/-- An active, unpaused match: player 1 at `(100, 648)` facing right,
player 2 at `(900, 648)` facing left, ball at `(150, 640)`. -/
def liveScene : GameScene :=
  { isGameActive := true, paused := false
    player1Score := 0, player2Score := 0
    lastGoalTime := 0, lastManualCollisionP1 := 0, lastManualCollisionP2 := 0
    player1 := idlePlayer
    player2 := { idlePlayer with x := 900, playerSide := Side.right, facingRight := false }
    ball := { restBall with x := 150, y := 640 }
    leftGoalX := 76, rightGoalX := 1076, goalY := 648 }

/-- Source `liveScene` with the ball moved to the left of player 1
(`ball.x = 60 < 100`), so the contact of player 1 is a body bounce. -/
def bounceScene : GameScene :=
  { liveScene with ball := { liveScene.ball with x := 60 } }

/-- Source `liveScene` with player 1 still inside the 500 ms kick cooldown
(`kickCooldown = 300`) but idle. -/
def cooldownScene : GameScene :=
  { liveScene with player1 := { idlePlayer with kickCooldown := 300 } }

/-- An inactive (post-goal freeze) variant of `liveScene` with a nonzero
score and pending goal time. -/
def frozenScene : GameScene :=
  { liveScene with isGameActive := false, player1Score := 2, lastGoalTime := 5000 }

/-- The AI-controlled player placed at the origin for the C9 scenario. -/
def aiPlayer : Player := { idlePlayer with x := 0, y := 0 }

/-- A stationary ball 50 units from `aiPlayer`. -/
def aiBall : Ball := ⟨50, 0, 0, 0, 0⟩

end

namespace V2

theorem length_nonneg (v : V2) : 0 ≤ v.length := Real.sqrt_nonneg _

theorem length_scale (v : V2) (s : ℝ) : (v.scale s).length = |s| * v.length := by
  unfold V2.scale V2.length
  have h : (v.x * s) ^ 2 + (v.y * s) ^ 2 = s ^ 2 * (v.x ^ 2 + v.y ^ 2) := by ring
  rw [h, Real.sqrt_mul (sq_nonneg s), Real.sqrt_sq_eq_abs]

theorem length_normalize (v : V2) (h : 0 < v.length) : v.normalize.length = 1 := by
  unfold V2.normalize
  rw [if_pos h]
  have hL0 : v.length ≠ 0 := ne_of_gt h
  have hsq : v.length ^ 2 = v.x ^ 2 + v.y ^ 2 :=
    Real.sq_sqrt (by positivity)
  show Real.sqrt ((v.x / v.length) ^ 2 + (v.y / v.length) ^ 2) = 1
  have hdiv : (v.x / v.length) ^ 2 + (v.y / v.length) ^ 2 =
      (v.x ^ 2 + v.y ^ 2) / v.length ^ 2 := by ring
  rw [hdiv, ← hsq, div_self (pow_ne_zero 2 hL0), Real.sqrt_one]

theorem length_mk_of_sq (a b c : ℝ) (hc : 0 ≤ c) (h : a ^ 2 + b ^ 2 = c ^ 2) :
    (V2.mk a b).length = c := by
  unfold V2.length
  show Real.sqrt (a ^ 2 + b ^ 2) = c
  rw [h, Real.sqrt_sq hc]

end V2

/-- Claim C5: for every kick of kind `jump` with impulse `(x, y)`, the
pre-clamp shaped force has vertical component exactly `-2.0 * |y|` and
horizontal component exactly `0.8 * x`. -/
theorem jump_kick_preclamp_components (force : V2) (d : ℝ) :
    (Ball.kickFinalForce force KickType.jump d).y = -(2.0 * |force.y|) ∧
    (Ball.kickFinalForce force KickType.jump d).x = 0.8 * force.x := by
  constructor <;> simp [Ball.kickFinalForce] <;> ring

/-- Claim C3 (code bug evaluation): for a `normal` kick the
distance-derived multiplier is `0.8 + 0.4 * min (d / 150) 2`, which is
`1.2` at `d = 150` but keeps growing to `1.6` at `d = 300` — outside the
documented `[0.8, 1.2]` range and not saturating at `d ≥ 150` — while
the vertical override `-max 200 (1.5 * d)` does hold. -/
theorem normal_kick_multiplier_exceeds_documented_range :
    (Ball.kickFinalForce ⟨100, 0⟩ KickType.normal 150).x = 1.2 * 100 ∧
    (Ball.kickFinalForce ⟨100, 0⟩ KickType.normal 300).x = 1.6 * 100 ∧
    ¬((1.6 : ℝ) * 100 ≤ 1.2 * 100) ∧
    (Ball.kickFinalForce ⟨100, 0⟩ KickType.normal 300).y = -max 200 (1.5 * 300) := by
  refine ⟨?_, ?_, by norm_num, ?_⟩ <;>
    · simp only [Ball.kickFinalForce, V2.scale]
      norm_num [min_def, max_def]

/-- Claim C4: for every kick of every kind and every impulse, the
velocity actually set on the body of the ball has magnitude at most
`1.2 * maxSpeed`. -/
theorem kick_speed_clamped (maxSpeed : ℝ) (hms : 0 ≤ maxSpeed) (b : Ball)
    (force : V2) (playerHeight : ℝ) (kickType : KickType) (distance : ℝ) :
    (Ball.kick maxSpeed b force playerHeight kickType distance).speed ≤
      maxSpeed * 1.2 := by
  have hcap : 0 ≤ maxSpeed * 1.2 := by nlinarith
  have hspeed :
      (Ball.kick maxSpeed b force playerHeight kickType distance).speed =
        (if (Ball.kickFinalForce force kickType distance).length > maxSpeed * 1.2
          then ((Ball.kickFinalForce force kickType distance).normalize).scale
            (maxSpeed * 1.2)
          else Ball.kickFinalForce force kickType distance).length := rfl
  rw [hspeed]
  set f := Ball.kickFinalForce force kickType distance with hf
  by_cases h : f.length > maxSpeed * 1.2
  · rw [if_pos h]
    have hpos : 0 < f.length := lt_of_le_of_lt hcap h
    rw [V2.length_scale, V2.length_normalize f hpos, mul_one,
      abs_of_nonneg hcap]
  · rw [if_neg h]
    exact not_lt.mp h

/-- Witness for C4 at a concrete input: `maxSpeed = 400` is nonnegative
and a concrete jump kick stays within `400 * 1.2`. -/
theorem kick_speed_clamped_witness :
    (0 : ℝ) ≤ 400 ∧
    (Ball.kick 400 restBall ⟨1000, 0⟩ 0 KickType.jump 0).speed ≤ 400 * 1.2 :=
  ⟨by norm_num,
    kick_speed_clamped 400 (by norm_num) restBall ⟨1000, 0⟩ 0 KickType.jump 0⟩

/-- Claim C6 (counterexample): with `maxSpeed = 400`, a jump kick with
impulse `(1000, 0)` is clamped from pre-clamp magnitude `800` down to
`480`, yet the angular velocity set is `0.02 * 800 = 16`, not
`0.02 * 480 = 9.6` — the spin is not derived from the post-clamp final
velocity. -/
theorem spin_uses_preclamp_magnitude_counterexample :
    (Ball.kick 400 restBall ⟨1000, 0⟩ 0 KickType.jump 0).angularVelocity = 16 ∧
    (Ball.kick 400 restBall ⟨1000, 0⟩ 0 KickType.jump 0).speed = 480 ∧
    (Ball.kick 400 restBall ⟨1000, 0⟩ 0 KickType.jump 0).angularVelocity ≠
      0.02 * (Ball.kick 400 restBall ⟨1000, 0⟩ 0 KickType.jump 0).speed := by
  have hf : Ball.kickFinalForce ⟨1000, 0⟩ KickType.jump 0 = ⟨800, 0⟩ := by
    simp only [Ball.kickFinalForce]
    norm_num
  have hlen : (V2.mk 800 0).length = 800 :=
    V2.length_mk_of_sq 800 0 800 (by norm_num) (by norm_num)
  have hnorm : (V2.mk 800 0).normalize = ⟨1, 0⟩ := by
    unfold V2.normalize
    rw [hlen, if_pos (by norm_num : (800 : ℝ) > 0)]
    norm_num
  have hkick : Ball.kick 400 restBall ⟨1000, 0⟩ 0 KickType.jump 0 =
      (⟨0, 0, 480, 0, 16⟩ : Ball) := by
    simp only [Ball.kick, hf, hlen, hnorm, restBall]
    norm_num [V2.scale]
  have hspeed : (Ball.kick 400 restBall ⟨1000, 0⟩ 0 KickType.jump 0).speed = 480 := by
    rw [hkick]
    exact V2.length_mk_of_sq 480 0 480 (by norm_num) (by norm_num)
  refine ⟨by rw [hkick], hspeed, ?_⟩
  rw [hspeed, hkick]
  norm_num

/-- While the state is `jumping`, the stun flag is clear and the kick
cooldown has elapsed, `handleInput` with the kick key asserted resolves
to `startKick` applied to the movement-updated player: the jump, slide
and trailing air-kick branches do not fire. -/
theorem handleInput_kick_while_jumping (cfg : PlayerConfig) (p : Player)
    (l r u d : Bool)
    (hstate : p.playerState = PState.jumping)
    (hcool : p.kickCooldown ≤ 0)
    (hstun : p.isStunned = false) :
    Player.handleInput cfg p l r u d true =
      Player.startKick cfg (Player.inputMove cfg p l r) := by
  have hms : (Player.inputMove cfg p l r).playerState = PState.jumping := by
    unfold Player.inputMove
    split_ifs <;> exact hstate
  have hmc : (Player.inputMove cfg p l r).kickCooldown ≤ 0 := by
    have : (Player.inputMove cfg p l r).kickCooldown = p.kickCooldown := by
      unfold Player.inputMove
      split_ifs <;> rfl
    rw [this]
    exact hcool
  unfold Player.handleInput
  rw [if_neg (by simp [hstun]), if_neg (by simp [hstate])]
  set m := Player.inputMove cfg p l r with hmdef
  have hj : Player.inputJump cfg (m, false) u = (m, false) := by
    unfold Player.inputJump
    rw [if_neg (by simp [hms])]
  have hs : Player.inputSlide cfg (m, false) d = (m, false) := by
    unfold Player.inputSlide
    rw [if_neg (by simp [hms])]
  have hk : Player.inputKick cfg (m, false) true = (Player.startKick cfg m, true) := by
    unfold Player.inputKick
    rw [if_pos ⟨rfl, hmc, by simp [hms], rfl⟩]
  have ha : Player.inputAirKick cfg (Player.startKick cfg m) true =
      Player.startKick cfg m := by
    unfold Player.inputAirKick
    rw [if_neg (by simp [Player.startKick])]
  rw [hj, hs, hk, ha]

/-- Source `updateStunTimer` leaves the state and the other timers alone when
the player is not stunned. -/
theorem updateStunTimer_of_not_stunned (q : Player) (delta : ℝ)
    (h : q.playerState ≠ PState.stunned) :
    (Player.updateStunTimer q delta).playerState = q.playerState ∧
    (Player.updateStunTimer q delta).slideTimer = q.slideTimer ∧
    (Player.updateStunTimer q delta).kickTimer = q.kickTimer ∧
    (Player.updateStunTimer q delta).kickCooldown = q.kickCooldown ∧
    (Player.updateStunTimer q delta).isOnGround = q.isOnGround := by
  simp only [Player.updateStunTimer]
  split_ifs <;> simp_all

/-- Source `updateSlideTimer` leaves the state and the kick timer alone when the
player is not sliding. -/
theorem updateSlideTimer_of_not_sliding (q : Player) (delta : ℝ)
    (h : q.playerState ≠ PState.sliding) :
    (Player.updateSlideTimer q delta).playerState = q.playerState ∧
    (Player.updateSlideTimer q delta).kickTimer = q.kickTimer ∧
    (Player.updateSlideTimer q delta).kickCooldown = q.kickCooldown ∧
    (Player.updateSlideTimer q delta).isOnGround = q.isOnGround := by
  simp only [Player.updateSlideTimer]
  split_ifs <;> simp_all

/-- Source `updateKickTimer` on an expiring kick: the state resumes `jumping`
when airborne and returns to `idle` when grounded. -/
theorem updateKickTimer_expiry (q : Player) (delta : ℝ)
    (hstate : q.playerState = PState.kicking)
    (hkt : 0 < q.kickTimer) (hexp : q.kickTimer - delta ≤ 0) :
    (Player.updateKickTimer q delta).playerState =
      (if q.isOnGround = true then PState.idle else PState.jumping) := by
  simp only [Player.updateKickTimer]
  split_ifs <;> simp_all

/-- Source `updateKickCooldown` never changes the state. -/
theorem updateKickCooldown_playerState (q : Player) (delta : ℝ) :
    (Player.updateKickCooldown q delta).playerState = q.playerState := by
  simp only [Player.updateKickCooldown]
  split_ifs <;> simp

/-- Claim C7: kick input while in the `jumping` state (kick cooldown
elapsed, not stunned) switches the state to `kicking` without cancelling
the scheduled jump fall/land timers; when the kick timer then expires
(`delta` at least the armed `kickDuration * 1000`), the state becomes
`jumping` again if the player is still airborne (`g = false`) and `idle`
if the player landed in the interim (`g = true`). -/
theorem air_kick_state_machine (cfg : PlayerConfig) (p : Player)
    (l r u d g : Bool) (delta : ℝ)
    (hstate : p.playerState = PState.jumping)
    (hcool : p.kickCooldown ≤ 0)
    (hstun : p.isStunned = false)
    (hdur : 0 < cfg.kickDuration)
    (hdelta : cfg.kickDuration * 1000 ≤ delta) :
    (Player.handleInput cfg p l r u d true).playerState = PState.kicking ∧
    (Player.handleInput cfg p l r u d true).jumpFallTimer = p.jumpFallTimer ∧
    (Player.handleInput cfg p l r u d true).jumpLandTimer = p.jumpLandTimer ∧
    (Player.updateTimers
        { Player.handleInput cfg p l r u d true with isOnGround := g }
        delta).playerState = (if g = true then PState.idle else PState.jumping) := by
  rw [handleInput_kick_while_jumping cfg p l r u d hstate hcool hstun]
  set m : Player := Player.inputMove cfg p l r with hm
  have hmf : m.jumpFallTimer = p.jumpFallTimer ∧ m.jumpLandTimer = p.jumpLandTimer := by
    rw [hm]
    unfold Player.inputMove
    split_ifs <;> exact ⟨rfl, rfl⟩
  refine ⟨by simp [Player.startKick], by simp [Player.startKick, hmf.1],
    by simp [Player.startKick, hmf.2], ?_⟩
  set q : Player := { Player.startKick cfg m with isOnGround := g } with hq
  have hqstate : q.playerState = PState.kicking := by simp [hq, Player.startKick]
  have hqkt : q.kickTimer = cfg.kickDuration * 1000 := by simp [hq, Player.startKick]
  have hqg : q.isOnGround = g := by simp [hq]
  unfold Player.updateTimers
  have h1 := updateStunTimer_of_not_stunned q delta (by rw [hqstate]; simp)
  have h2 := updateSlideTimer_of_not_sliding (Player.updateStunTimer q delta) delta
    (by rw [h1.1, hqstate]; simp)
  have h3 := updateKickTimer_expiry
    (Player.updateSlideTimer (Player.updateStunTimer q delta) delta) delta
    (by rw [h2.1, h1.1, hqstate])
    (by rw [h2.2.1, h1.2.2.1, hqkt]; positivity)
    (by rw [h2.2.1, h1.2.2.1, hqkt]; linarith)
  rw [updateKickCooldown_playerState, h3, h2.2.2.2, h1.2.2.2.2, hqg]

/-- Witness for C7: a concrete airborne player with kick input becomes
`kicking` with its jump timers still scheduled, and on kick-timer expiry
resumes `jumping` when still airborne. -/
theorem air_kick_state_machine_witness :
    airbornePlayer.playerState = PState.jumping ∧
    airbornePlayer.kickCooldown ≤ 0 ∧
    (Player.handleInput testPlayerConfig airbornePlayer false false false false
      true).playerState = PState.kicking ∧
    (Player.handleInput testPlayerConfig airbornePlayer false false false false
      true).jumpFallTimer = true ∧
    (Player.updateTimers
        { Player.handleInput testPlayerConfig airbornePlayer false false false false
            true with isOnGround := false }
        1000).playerState = PState.jumping := by
  have h := air_kick_state_machine testPlayerConfig airbornePlayer
    false false false false false 1000
    (by norm_num [airbornePlayer, idlePlayer])
    (by norm_num [airbornePlayer, idlePlayer])
    (by norm_num [airbornePlayer, idlePlayer])
    (by norm_num [testPlayerConfig])
    (by norm_num [testPlayerConfig])
  refine ⟨by norm_num [airbornePlayer, idlePlayer],
    by norm_num [airbornePlayer, idlePlayer], h.1, ?_, by simpa using h.2.2.2⟩
  rw [h.2.1]
  norm_num [airbornePlayer, idlePlayer]

/-- Source `handleGoal` is a no-op on an inactive scene. -/
theorem handleGoal_inactive (s : GameScene) (a : Bool) (now : ℝ)
    (h : s.isGameActive = false) :
    GameScene.handleGoal s a now = s := by
  unfold GameScene.handleGoal
  rw [if_pos h]

/-- Source `handlePlayerBallContact` is a no-op on an inactive scene. -/
theorem handlePlayerBallContact_inactive (cfg : Config) (s : GameScene) (u : Bool)
    (h : s.isGameActive = false) :
    GameScene.handlePlayerBallContact cfg s u = s := by
  unfold GameScene.handlePlayerBallContact
  rw [if_pos (Or.inl h)]

/-- Source `handlePlayerCollision` is a no-op on an inactive scene. -/
theorem handlePlayerCollision_inactive (cfg : Config) (s : GameScene)
    (h : s.isGameActive = false) :
    GameScene.handlePlayerCollision cfg s = s := by
  unfold GameScene.handlePlayerCollision
  rw [if_pos (Or.inl h)]

/-- Source `checkManualCollisions` is a no-op on an inactive scene. -/
theorem checkManualCollisions_inactive (cfg : Config) (s : GameScene) (now : ℝ)
    (h : s.isGameActive = false) :
    GameScene.checkManualCollisions cfg s now = s := by
  unfold GameScene.checkManualCollisions
  rw [if_pos (Or.inl h)]

/-- An accepted goal (active scene, debounce guard passed) leaves a scene
whose `isGameActive` flag is false. -/
theorem handleGoal_accepted_deactivates (s : GameScene) (a : Bool) (t1 : ℝ)
    (hact : s.isGameActive = true)
    (hfirst : ¬(s.lastGoalTime ≠ 0 ∧ t1 - s.lastGoalTime < 1000)) :
    (GameScene.handleGoal s a t1).isGameActive = false := by
  unfold GameScene.handleGoal
  rw [if_neg (by simp [hact]), if_neg hfirst]
  cases a <;> simp

/-- An accepted goal adds exactly one to the combined score. -/
theorem handleGoal_accepted_scores (s : GameScene) (a : Bool) (t1 : ℝ)
    (hact : s.isGameActive = true)
    (hfirst : ¬(s.lastGoalTime ≠ 0 ∧ t1 - s.lastGoalTime < 1000)) :
    (GameScene.handleGoal s a t1).player1Score +
      (GameScene.handleGoal s a t1).player2Score =
      s.player1Score + s.player2Score + 1 := by
  unfold GameScene.handleGoal
  rw [if_neg (by simp [hact]), if_neg hfirst]
  cases a <;> simp <;> omega

/-- Claim C2: when a goal trigger is accepted at time `t1` (match
active, debounce guard passed), exactly one score increment is applied,
and any second `handleGoal` invocation within 1000 time-units leaves the
entire match state unchanged. -/
theorem goal_debounce_single_increment (s : GameScene) (a b : Bool) (t1 t2 : ℝ)
    (hact : s.isGameActive = true)
    (hfirst : ¬(s.lastGoalTime ≠ 0 ∧ t1 - s.lastGoalTime < 1000))
    (hwin : t2 - t1 < 1000) :
    (GameScene.handleGoal s a t1).player1Score +
        (GameScene.handleGoal s a t1).player2Score =
      s.player1Score + s.player2Score + 1 ∧
    GameScene.handleGoal (GameScene.handleGoal s a t1) b t2 =
      GameScene.handleGoal s a t1 :=
  ⟨handleGoal_accepted_scores s a t1 hact hfirst,
    handleGoal_inactive _ b t2 (handleGoal_accepted_deactivates s a t1 hact hfirst)⟩

/-- Witness for C2: a first goal on the live scene at `t1 = 2000` scores
once, and a duplicate trigger at `t2 = 2500` changes nothing. -/
theorem goal_debounce_single_increment_witness :
    liveScene.isGameActive = true ∧
    ¬(liveScene.lastGoalTime ≠ 0 ∧ 2000 - liveScene.lastGoalTime < 1000) ∧
    (2500 : ℝ) - 2000 < 1000 ∧
    ((GameScene.handleGoal liveScene true 2000).player1Score +
        (GameScene.handleGoal liveScene true 2000).player2Score =
      liveScene.player1Score + liveScene.player2Score + 1 ∧
    GameScene.handleGoal (GameScene.handleGoal liveScene true 2000) false 2500 =
      GameScene.handleGoal liveScene true 2000) :=
  ⟨rfl, by norm_num [liveScene], by norm_num,
    goal_debounce_single_increment liveScene true false 2000 2500 rfl
      (by norm_num [liveScene]) (by norm_num)⟩

/-- Claim C10: while `isGameActive` is false every goal, player–ball and
player–player handler and the manual backup pass return the scene
unchanged; and an accepted goal immediately deactivates the scene, so
any further goal trigger — at any time, regardless of the 1000-unit
debounce window — is a no-op. -/
theorem inactive_freeze_blocks_all_handlers :
    (∀ (cfg : Config) (s : GameScene) (u a : Bool) (now : ℝ),
        s.isGameActive = false →
        GameScene.handleGoal s a now = s ∧
        GameScene.handlePlayerBallContact cfg s u = s ∧
        GameScene.handlePlayerCollision cfg s = s ∧
        GameScene.checkManualCollisions cfg s now = s) ∧
    (∀ (s : GameScene) (a : Bool) (t1 : ℝ),
        s.isGameActive = true →
        ¬(s.lastGoalTime ≠ 0 ∧ t1 - s.lastGoalTime < 1000) →
        (GameScene.handleGoal s a t1).isGameActive = false ∧
        ∀ (b : Bool) (t2 : ℝ),
          GameScene.handleGoal (GameScene.handleGoal s a t1) b t2 =
            GameScene.handleGoal s a t1) := by
  constructor
  · intro cfg s u a now h
    exact ⟨handleGoal_inactive s a now h,
      handlePlayerBallContact_inactive cfg s u h,
      handlePlayerCollision_inactive cfg s h,
      checkManualCollisions_inactive cfg s now h⟩
  · intro s a t1 hact hfirst
    refine ⟨handleGoal_accepted_deactivates s a t1 hact hfirst, ?_⟩
    intro b t2
    exact handleGoal_inactive _ b t2 (handleGoal_accepted_deactivates s a t1 hact hfirst)

/-- Witness for C10: the frozen scene absorbs every handler, and an
accepted goal on the live scene deactivates it and blocks an immediate
follow-up trigger. -/
theorem inactive_freeze_blocks_all_handlers_witness :
    frozenScene.isGameActive = false ∧
    GameScene.handleGoal frozenScene true 6000 = frozenScene ∧
    GameScene.handlePlayerBallContact testConfig frozenScene true = frozenScene ∧
    GameScene.handlePlayerCollision testConfig frozenScene = frozenScene ∧
    GameScene.checkManualCollisions testConfig frozenScene 6000 = frozenScene ∧
    (GameScene.handleGoal liveScene true 2000).isGameActive = false ∧
    GameScene.handleGoal (GameScene.handleGoal liveScene true 2000) false 2100 =
      GameScene.handleGoal liveScene true 2000 := by
  have h1 := inactive_freeze_blocks_all_handlers.1 testConfig frozenScene true true 6000 rfl
  have h2 := inactive_freeze_blocks_all_handlers.2 liveScene true 2000 rfl
    (by norm_num [liveScene])
  exact ⟨rfl, h1.1, h1.2.1, h1.2.2.1, h1.2.2.2, h2.1, h2.2 false 2100⟩

/-- Claim C1: for a contact handled while the match is active and not
paused, a proper kick occurs exactly when the facing matches the side of
the ball (facing right and ball strictly right, or facing left and ball
strictly left), in which case `Ball.kick` is applied; in every other
case the ball velocity is set to exactly `(200, -100)` when the ball is
to the right of the player and `(-200, -100)` when it is to the left, with
both players (state machines included) unchanged. -/
theorem contact_kick_iff_facing_matches (cfg : Config) (s : GameScene) (u : Bool)
    (hact : s.isGameActive = true) (hp : s.paused = false) :
    (s.isProperKick u ↔
      ((s.contactPlayer u).facingRight = true ∧ s.ball.x > (s.contactPlayer u).x) ∨
      ((s.contactPlayer u).facingRight = false ∧ s.ball.x < (s.contactPlayer u).x)) ∧
    (s.isProperKick u →
      (GameScene.handlePlayerBallContact cfg s u).ball =
        Ball.kick cfg.ball.maxSpeed s.ball
          (Player.getKickInfo cfg.ball (s.contactPlayer u)).force
          (s.contactPlayer u).y
          (Player.getKickInfo cfg.ball (s.contactPlayer u)).type
          (Real.sqrt ((s.ball.x - (s.contactPlayer u).x) ^ 2 +
            (s.ball.y - (s.contactPlayer u).y) ^ 2))) ∧
    (¬s.isProperKick u →
      (s.ball.x > (s.contactPlayer u).x →
        (GameScene.handlePlayerBallContact cfg s u).ball.velX = 200) ∧
      (s.ball.x < (s.contactPlayer u).x →
        (GameScene.handlePlayerBallContact cfg s u).ball.velX = -200) ∧
      (GameScene.handlePlayerBallContact cfg s u).ball.velY = -100 ∧
      (GameScene.handlePlayerBallContact cfg s u).ball.angularVelocity =
        s.ball.angularVelocity ∧
      (GameScene.handlePlayerBallContact cfg s u).player1 = s.player1 ∧
      (GameScene.handlePlayerBallContact cfg s u).player2 = s.player2) := by
  refine ⟨?_, ?_, ?_⟩
  · unfold GameScene.isProperKick
    constructor
    · rintro (⟨hf, hrel⟩ | ⟨hf, hrel⟩)
      · exact Or.inl ⟨hf, by linarith⟩
      · exact Or.inr ⟨hf, by linarith⟩
    · rintro (⟨hf, hlt⟩ | ⟨hf, hlt⟩)
      · exact Or.inl ⟨hf, by linarith⟩
      · exact Or.inr ⟨hf, by linarith⟩
  · intro hpk
    unfold GameScene.handlePlayerBallContact
    rw [if_neg (by simp [hact, hp]), if_pos hpk]
    cases u <;> simp
  · intro hnpk
    unfold GameScene.handlePlayerBallContact
    rw [if_neg (by simp [hact, hp]), if_neg hnpk]
    refine ⟨fun hgt => ?_, fun hlt => ?_, by simp, by simp, by simp, by simp⟩
    · simp only []
      rw [if_pos (by linarith : s.ball.x - (s.contactPlayer u).x > 0)]
    · simp only []
      rw [if_neg (by push_neg; nlinarith : ¬s.ball.x - (s.contactPlayer u).x > 0)]

/-- Witness for C1: in `bounceScene` player 1 faces right with the ball
to the left, so the contact is a body bounce to `(-200, -100)` leaving
both players unchanged. -/
theorem contact_kick_iff_facing_matches_witness :
    bounceScene.isGameActive = true ∧ bounceScene.paused = false ∧
    ¬bounceScene.isProperKick true ∧
    bounceScene.ball.x < bounceScene.player1.x ∧
    (GameScene.handlePlayerBallContact testConfig bounceScene true).ball.velX = -200 ∧
    (GameScene.handlePlayerBallContact testConfig bounceScene true).ball.velY = -100 ∧
    (GameScene.handlePlayerBallContact testConfig bounceScene true).player1 =
      bounceScene.player1 := by
  have hball : bounceScene.ball.x < bounceScene.player1.x := by
    norm_num [bounceScene, liveScene, idlePlayer, restBall]
  have hnpk : ¬bounceScene.isProperKick true := by
    unfold GameScene.isProperKick GameScene.contactPlayer
    norm_num [bounceScene, liveScene, idlePlayer, restBall]
  have h := (contact_kick_iff_facing_matches testConfig bounceScene true rfl rfl).2.2 hnpk
  exact ⟨rfl, rfl, hnpk, hball, h.2.1 hball, h.2.2.1, h.2.2.2.2.1⟩

/-- Claim C8 (counterexample): in `cooldownScene` the contact is a
proper kick and player 1 is neither sliding nor kicking, yet — because
the 500 ms kick cooldown has not elapsed (`kickCooldown = 300`) —
`triggerKick` does not start the kicking state: the player stays
`idle`. -/
theorem kick_state_not_triggered_under_cooldown :
    cooldownScene.isGameActive = true ∧ cooldownScene.paused = false ∧
    cooldownScene.isProperKick true ∧
    ¬cooldownScene.player1.isSliding ∧ ¬cooldownScene.player1.isKicking ∧
    cooldownScene.player1.kickCooldown = 300 ∧
    (GameScene.handlePlayerBallContact testConfig cooldownScene true).player1.playerState =
      PState.idle := by
  have hstate1 : cooldownScene.player1.playerState = PState.idle := rfl
  have hface : cooldownScene.player1.facingRight = true := rfl
  have hbx : cooldownScene.ball.x = 150 := rfl
  have hpx : cooldownScene.player1.x = 100 := rfl
  have hcp : cooldownScene.contactPlayer true = cooldownScene.player1 := rfl
  have hpk : cooldownScene.isProperKick true := by
    unfold GameScene.isProperKick
    rw [hcp, hface, hbx, hpx]
    left
    norm_num
  have hns : ¬cooldownScene.player1.isSliding := by
    unfold Player.isSliding
    rw [hstate1]
    simp
  have hnk : ¬cooldownScene.player1.isKicking := by
    unfold Player.isKicking
    rw [hstate1]
    simp
  have hcool : ¬cooldownScene.player1.kickCooldown ≤ 0 := by
    have : cooldownScene.player1.kickCooldown = 300 := rfl
    rw [this]
    norm_num
  have hstate : (GameScene.handlePlayerBallContact testConfig cooldownScene
      true).player1.playerState = PState.idle := by
    simp only [GameScene.handlePlayerBallContact]
    rw [if_neg (by norm_num [cooldownScene, liveScene]), if_pos hpk]
    simp only [hcp]
    rw [if_pos (And.intro hns hnk)]
    unfold Player.triggerKick
    rw [if_neg hcool]
    simp [hstate1]
  exact ⟨rfl, rfl, hpk, hns, hnk, rfl, hstate⟩

/-- Claim C8 (amended): on every proper-kick contact `Ball.kick` is
applied with the computed kick info of the kicking player; when the player is
neither sliding nor kicking, `triggerKick` is invoked, which starts the
kicking state (with its timer armed) only if the kick cooldown has
elapsed, and leaves the player unchanged otherwise. -/
theorem proper_kick_delegates_and_triggers (cfg : Config) (s : GameScene) (u : Bool)
    (hact : s.isGameActive = true) (hp : s.paused = false)
    (hpk : s.isProperKick u)
    (hns : ¬(s.contactPlayer u).isSliding)
    (hnk : ¬(s.contactPlayer u).isKicking) :
    (GameScene.handlePlayerBallContact cfg s u).ball =
      Ball.kick cfg.ball.maxSpeed s.ball
        (Player.getKickInfo cfg.ball (s.contactPlayer u)).force
        (s.contactPlayer u).y
        (Player.getKickInfo cfg.ball (s.contactPlayer u)).type
        (Real.sqrt ((s.ball.x - (s.contactPlayer u).x) ^ 2 +
          (s.ball.y - (s.contactPlayer u).y) ^ 2)) ∧
    ((s.contactPlayer u).kickCooldown ≤ 0 →
      ((GameScene.handlePlayerBallContact cfg s u).contactPlayer u).playerState =
        PState.kicking ∧
      ((GameScene.handlePlayerBallContact cfg s u).contactPlayer u).kickTimer =
        cfg.player.kickDuration * 1000) ∧
    (¬(s.contactPlayer u).kickCooldown ≤ 0 →
      (GameScene.handlePlayerBallContact cfg s u).contactPlayer u =
        s.contactPlayer u) := by
  refine ⟨?_, ?_, ?_⟩
  · simp only [GameScene.handlePlayerBallContact]
    rw [if_neg (by simp [hact, hp]), if_pos hpk]
    cases u <;> simp
  · intro hcool
    simp only [GameScene.handlePlayerBallContact]
    rw [if_neg (by simp [hact, hp]), if_pos hpk]
    rw [if_pos (And.intro hns hnk)]
    unfold Player.triggerKick
    rw [if_pos hcool]
    cases u <;> simp [GameScene.contactPlayer, Player.startKick]
  · intro hcool
    simp only [GameScene.handlePlayerBallContact]
    rw [if_neg (by simp [hact, hp]), if_pos hpk]
    rw [if_pos (And.intro hns hnk)]
    unfold Player.triggerKick
    rw [if_neg hcool]
    cases u <;> simp [GameScene.contactPlayer]

/-- Witness for C8 (amended): in `liveScene` (cooldown elapsed) the
proper-kick contact both kicks the ball and puts player 1 in the
`kicking` state. -/
theorem proper_kick_delegates_and_triggers_witness :
    liveScene.isGameActive = true ∧ liveScene.paused = false ∧
    liveScene.isProperKick true ∧
    ¬liveScene.player1.isSliding ∧ ¬liveScene.player1.isKicking ∧
    liveScene.player1.kickCooldown ≤ 0 ∧
    ((GameScene.handlePlayerBallContact testConfig liveScene true).contactPlayer
      true).playerState = PState.kicking := by
  have hpk : liveScene.isProperKick true := by
    unfold GameScene.isProperKick GameScene.contactPlayer
    left
    constructor
    · norm_num [liveScene, idlePlayer]
    · norm_num [liveScene, idlePlayer, restBall]
  have hns : ¬liveScene.player1.isSliding := by
    unfold Player.isSliding
    rw [show liveScene.player1.playerState = PState.idle from rfl]
    simp
  have hnk : ¬liveScene.player1.isKicking := by
    unfold Player.isKicking
    rw [show liveScene.player1.playerState = PState.idle from rfl]
    simp
  have hcool : liveScene.player1.kickCooldown ≤ 0 := by
    norm_num [liveScene, idlePlayer]
  have h := (proper_kick_delegates_and_triggers testConfig liveScene true rfl rfl
    hpk hns hnk).2.1 hcool
  exact ⟨rfl, rfl, hpk, hns, hnk, hcool, h.1⟩

/-- Claim C9: whenever the distance from the AI player to the ball is
below 80 and the ball is not moving (speed at most the 20-unit
threshold), the decision rule selects `attack` — this is the first rule,
taking priority over chase, defend and idle. -/
theorem ai_attack_priority (player : Player) (ball : Ball) (camWidth r : ℝ)
    (hd : Real.sqrt ((ball.x - player.x) ^ 2 + (ball.y - player.y) ^ 2) < 80)
    (hv : ball.speed ≤ 20) :
    (AIController.makeDecision player ball camWidth r).1 = AIAction.attack := by
  unfold AIController.makeDecision
  rw [if_pos ⟨hd, by simpa [Ball.isMoving] using not_lt.mpr hv⟩]

/-- Witness for C9, the spec scenario: distance to ball 50, ball
velocity `(0, 0)` — the next decision is `attack`. -/
theorem ai_attack_priority_witness :
    Real.sqrt ((aiBall.x - aiPlayer.x) ^ 2 + (aiBall.y - aiPlayer.y) ^ 2) < 80 ∧
    aiBall.speed ≤ 20 ∧
    (AIController.makeDecision aiPlayer aiBall 1152 0).1 = AIAction.attack := by
  have hd : Real.sqrt ((aiBall.x - aiPlayer.x) ^ 2 + (aiBall.y - aiPlayer.y) ^ 2) < 80 := by
    have h1 : ((aiBall.x - aiPlayer.x) ^ 2 + (aiBall.y - aiPlayer.y) ^ 2 : ℝ) = 2500 := by
      norm_num [aiBall, aiPlayer, idlePlayer]
    rw [h1, show (2500 : ℝ) = 50 ^ 2 by norm_num,
      Real.sqrt_sq (by norm_num : (0 : ℝ) ≤ 50)]
    norm_num
  have hv : aiBall.speed ≤ 20 := by
    unfold Ball.speed
    have h1 : (aiBall.velX ^ 2 + aiBall.velY ^ 2 : ℝ) = 0 := by
      norm_num [aiBall]
    rw [h1, Real.sqrt_zero]
    norm_num
  exact ⟨hd, hv, ai_attack_priority aiPlayer aiBall 1152 0 hd hv⟩

/-- Claim C6 (amended): the angular velocity equals `0.02` times the
magnitude of the shaped force before the clamp, positive when the horizontal component of the raw
impulse is positive and negative otherwise. -/
theorem spin_from_preclamp_magnitude (maxSpeed : ℝ) (b : Ball) (force : V2)
    (playerHeight : ℝ) (kickType : KickType) (distance : ℝ) :
    (Ball.kick maxSpeed b force playerHeight kickType distance).angularVelocity =
      if force.x > 0 then (Ball.kickFinalForce force kickType distance).length * 0.02
      else -((Ball.kickFinalForce force kickType distance).length * 0.02) := rfl

end Dayonegame
